import Mathlib

/-!
Verification development for the ClariaAI transcription front end
(services/transcriptionService.ts, App.tsx, components/TranscriptionDisplay.tsx,
components/FileUpload.tsx, types.ts).

The remote generative-model capability (ai.models.generateContent /
ai.chats.create) and the JavaScript JSON.parse library call are external
boundaries: each call site is modelled by an oracle argument describing the
outcome of that one remote/library call (the call threw, or returned a given
payload).  Everything on this side of that boundary — control flow, guards,
retry loop, fallbacks, string assembly, state updates — is translated
directly from the TypeScript source.

JavaScript conventions used throughout the embedding:
* a possibly-undefined/null value is an `Option`;
* the JS truthiness test on a string (`!s`, `s || d`) treats both the missing
  value and the empty string as false — `jsOr` / `jsFalsy` mirror this;
* JS numbers are embedded as rationals (ℚ); the claims involve no
  floating-point rounding, only exact decimal values.
-/

namespace Claria

/-- types.ts: TranscriptionStatus enum. -/
inductive TranscriptionStatus where
  | idle
  | uploading
  | processing
  | completed
  | error
deriving DecidableEq, Repr

/-- types.ts: TranscriptionSegment.  The source field named by the reserved
word end is rendered endTime here. -/
structure TranscriptionSegment where
  start : ℚ
  endTime : ℚ
  text : String
deriving DecidableEq, Repr

/-- types.ts: Metadata (title and description). -/
structure Metadata where
  title : String
  description : String
deriving DecidableEq, Repr

/-- types.ts: TranscriptionResponse.  category and metadata are optional. -/
structure TranscriptionResponse where
  text : String
  category : Option String
  metadata : Option Metadata
  segments : List TranscriptionSegment
  confidence : ℚ
deriving DecidableEq, Repr

/-- types.ts: ChatMessage role. -/
inductive ChatRole where
  | user
  | model
deriving DecidableEq, Repr

/-- types.ts: ChatMessage. -/
structure ChatMessage where
  role : ChatRole
  text : String
deriving DecidableEq, Repr

/-- JS `o || d` on a string-valued, possibly absent expression: the default
is taken when the value is undefined/null or the empty string. -/
def jsOr (o : Option String) (d : String) : String :=
  match o with
  | none => d
  | some s => if s = "" then d else s

/-- JS truthiness test `!s` on a string-valued, possibly absent variable:
true exactly on undefined/null and on the empty string. -/
def jsFalsy : Option String → Bool
  | none => true
  | some s => s == ""

/-- `segments.map(s => s.text).join(' ')`: join a list of strings with single
spaces (Array.prototype.join with separator " "). -/
def joinSpace : List String → String
  | [] => ""
  | [s] => s
  | s :: rest => s ++ " " ++ joinSpace rest

/-- The shape JSON.parse yields for the media-transcription response schema
(transcriptionService.ts, transcribeAudio): a category and a segment list,
either of which an untrusted parse may omit. -/
structure ParsedAudio where
  category : Option String
  segments : Option (List TranscriptionSegment)
deriving DecidableEq, Repr

/-- The shape JSON.parse yields inside generateMetadata. -/
structure ParsedMeta where
  title : Option String
  description : Option String
deriving DecidableEq, Repr

/-- Outcome of the generateMetadata remote call and its JSON.parse:
the remote call threw, or it returned text whose parse threw (`parsed none`)
or produced a ParsedMeta (`parsed (some j)`). -/
inductive MetaOutcome where
  | remoteError
  | parsed (j : Option ParsedMeta)
deriving DecidableEq, Repr

/-- transcriptionService.ts generateMetadata: try/catch around one remote
call plus JSON.parse(response.text || "..."); every failure is caught and
replaced by the fixed fallback metadata, so the function is total. -/
def generateMetadata : MetaOutcome → Metadata
  | .remoteError => { title := "Áudio Processado", description := "Conteúdo transcrito." }
  | .parsed none => { title := "Áudio Processado", description := "Conteúdo transcrito." }
  | .parsed (some j) =>
      { title := jsOr j.title "Transcrição", description := jsOr j.description "" }

/-- transcriptionService.ts transcribeAudio, after the FileReader step.
`rawText` is response.text of the single remote call ("" models the
undefined/empty case, which JS tests with `!rawText`); `parsed` is the
JSON.parse outcome on rawText (none = the parse threw); `mo` drives the
inner generateMetadata call.  On parse failure the source substitutes the
single fallback segment covering time zero with the raw text verbatim. -/
def transcribeAudio (rawText : String) (parsed : Option ParsedAudio)
    (mo : MetaOutcome) : Except String TranscriptionResponse :=
  if rawText = "" then
    .error "O modelo não retornou dados."
  else
    let parsedData : ParsedAudio :=
      match parsed with
      | some p => p
      | none => { category := some "Geral", segments := some [⟨0, 0, rawText⟩] }
    let segments := parsedData.segments.getD []
    let fullText := joinSpace (segments.map (fun s => s.text))
    let metadata := generateMetadata mo
    .ok { text := fullText
        , category := parsedData.category
        , metadata := some metadata
        , segments := segments
        , confidence := 1 }

/-- The shape JSON.parse yields for the URL structuring-stage schema
(transcriptionService.ts, formatContentToJson): title, description, the
content_missing sentinel slot, and the segment list. -/
structure UrlData where
  title : Option String
  description : Option String
  error : Option String
  segments : Option (List TranscriptionSegment)
deriving DecidableEq, Repr

/-- Outcome of one remote stage: the awaited call threw, or returned a value. -/
inductive StageResult (α : Type) where
  | thrown
  | value (a : α)
deriving DecidableEq, Repr

/-- Oracle for one attempt of the URL two-stage pipeline:
`searchResult` is searchYouTubeContent's remote call ("" models missing
response.text); `formatResult` is formatContentToJson's remote call followed
by JSON.parse (cleanJson (response.text || "...")) — none means that parse
threw. -/
structure UrlAttemptOracle where
  searchResult : StageResult String
  formatResult : StageResult (Option UrlData)
deriving DecidableEq, Repr

/-- One iteration body of the while loop in transcribeUrl: run the search
stage, run the structuring stage, apply the three quality gates
(content_missing sentinel, empty/absent segments, joined text shorter than
50 characters), and on success build the fixed-category 0.90-confidence
response.  Any `.error` is the thrown exception the loop's catch receives. -/
def urlAttempt (o : UrlAttemptOracle) : Except String TranscriptionResponse :=
  match o.searchResult with
  | .thrown => .error "Erro remoto na busca."
  | .value t =>
    if t = "" then .error "A IA não retornou texto na busca."
    else
      match o.formatResult with
      | .thrown => .error "Erro remoto na formatação."
      | .value none => .error "Erro de leitura do JSON."
      | .value (some data) =>
        if data.error = some "content_missing" ∨ data.segments = none ∨
            data.segments = some [] then
          .error "Conteúdo insuficiente encontrado."
        else
          let segments := data.segments.getD []
          let fullText := joinSpace (segments.map (fun s => s.text))
          if fullText.length < 50 then
            .error "Texto recuperado muito curto."
          else
            .ok { text := fullText
                , category := some "YouTube"
                , metadata := some { title := jsOr data.title "Vídeo do YouTube"
                                   , description := jsOr data.description "Transcrição importada." }
                , segments := segments
                , confidence := 9 / 10 }

/-- transcribeUrl's maxRetries constant. -/
def maxRetries : ℕ := 2

/-- The user-facing message thrown when every attempt failed. -/
def missingCaptionsMsg : String :=
  "Não foi possível extrair a transcrição exata deste vídeo. Verifique se ele possui legendas públicas ou tente outro link."

/-- Observable trace of one transcribeUrl run: the final result, the number
of attempts actually made, and the backoff sleeps (in milliseconds) that
were awaited, in order. -/
structure UrlRunTrace where
  result : Except String TranscriptionResponse
  attemptsUsed : ℕ
  sleeps : List ℕ
deriving Repr

/-- The while loop of transcribeUrl, driven by `rem = maxRetries - attempts`
(so `0 < rem` after an attempt is the source's `attempts < maxRetries`
backoff test, and `rem = 0` is the loop exit that reaches the final throw).
`runs i` is the outcome of attempt number i (0-based). -/
def urlLoopAux (runs : ℕ → Except String TranscriptionResponse) :
    ℕ → ℕ → List ℕ → UrlRunTrace
  | 0, attempts, sleeps => ⟨.error missingCaptionsMsg, attempts, sleeps⟩
  | rem + 1, attempts, sleeps =>
    match runs attempts with
    | .ok r => ⟨.ok r, attempts + 1, sleeps⟩
    | .error _ =>
      match rem with
      | 0 => urlLoopAux runs 0 (attempts + 1) sleeps
      | rem2 + 1 => urlLoopAux runs (rem2 + 1) (attempts + 1) (sleeps ++ [2500])

/-- transcriptionService.ts transcribeUrl: up to maxRetries attempts of the
two-stage pipeline with a 2500 ms backoff between attempts. -/
def transcribeUrl (oracles : ℕ → UrlAttemptOracle) : UrlRunTrace :=
  urlLoopAux (fun i => urlAttempt (oracles i)) maxRetries 0 []

/-- The spec's failure conditions for one URL attempt: both stages returned,
and the structured data carries the content_missing sentinel, or empty or
absent segments, or a joined full text shorter than 50 characters. -/
def attemptSpecFailed (o : UrlAttemptOracle) : Prop :=
  ∃ t data, o.searchResult = .value t ∧ t ≠ "" ∧
    o.formatResult = .value (some data) ∧
    (data.error = some "content_missing" ∨ data.segments = none ∨
      data.segments = some [] ∨
      (joinSpace ((data.segments.getD []).map (fun s => s.text))).length < 50)

/-- Outcome of one awaited remote generateContent call for the derived-view
operations: it threw, or returned a response whose .text is the payload
(none models undefined). -/
inductive Remote (α : Type) where
  | thrown
  | ok (a : α)
deriving DecidableEq, Repr

/-- transcriptionService.ts generateSummary: a single remote call with no
try/catch — a remote throw propagates to the caller (`.error ()`). -/
def generateSummary (r : Remote (Option String)) : Except Unit String :=
  match r with
  | .thrown => .error ()
  | .ok t => .ok (jsOr t "")

/-- transcriptionService.ts translateText: a single remote call with no
try/catch — a remote throw propagates to the caller. -/
def translateText (r : Remote (Option String)) : Except Unit String :=
  match r with
  | .thrown => .error ()
  | .ok t => .ok (jsOr t "")

/-- transcriptionService.ts refineText: try/catch around one remote call;
the catch returns the input text unchanged, so the operation never throws. -/
def refineText (text : String) (r : Remote (Option String)) : Except Unit String :=
  match r with
  | .thrown => .ok text
  | .ok t => .ok (jsOr t text)

/-- The request sendChatMessage issues: chat created with a context-bearing
system instruction, then one message carrying the question.  The history
parameter appears nowhere in the source body. -/
structure ChatRequest where
  modelName : String
  systemInstruction : String
  message : String
deriving DecidableEq, Repr

/-- transcriptionService.ts sendChatMessage, lines 383-386: the remote
request it builds.  `history` is a parameter of the source function but is
never read. -/
def sendChatMessageRequest (history : List ChatMessage) (context question : String) :
    ChatRequest :=
  { modelName := "gemini-2.5-flash"
  , systemInstruction :=
      "Você é um assistente útil. Responda APENAS com base no seguinte texto:\n" ++ context
  , message := question }

/-- transcriptionService.ts sendChatMessage: try/catch around chat creation
and one sendMessage call.  The oracle `r` maps the issued request to the
remote outcome; both the catch branch and a missing/empty response text
yield the fixed string, so the operation never throws. -/
def sendChatMessage (history : List ChatMessage) (context question : String)
    (r : ChatRequest → Remote (Option String)) : Except Unit String :=
  match r (sendChatMessageRequest history context question) with
  | .thrown => .ok "Erro no chat."
  | .ok t => .ok (jsOr t "Erro no chat.")

/-- App.tsx component state: lifecycle status, the selected file (only its
byte size matters to the core, so a file is its size), the stored result,
and the progress-estimation fields. -/
structure AppState where
  status : TranscriptionStatus
  file : Option ℚ
  result : Option TranscriptionResponse
  progress : ℚ
  estimatedSeconds : ℚ
  remainingSeconds : ℚ
  errorMessage : Option String
deriving Repr

/-- App.tsx progress useEffect, cleanup half: whenever status is not
PROCESSING the effect body runs setProgress(0) and installs no interval. -/
def progressEffect (s : AppState) : AppState :=
  if s.status = .processing then s else { s with progress := 0 }

/-- App.tsx progress useEffect, one firing of the 1000 ms interval (which
exists only while status is PROCESSING): decrement remainingSeconds floored
at zero; stall progress at 95, otherwise advance it by 100/estimatedSeconds
capped at 95. -/
def tick (s : AppState) : AppState :=
  if s.status = .processing then
    { s with
      remainingSeconds := max 0 (s.remainingSeconds - 1)
      progress :=
        if 95 ≤ s.progress then s.progress
        else min 95 (s.progress + 100 / s.estimatedSeconds) }
  else s

/-- App.tsx handleFileSelect time estimate: 3 seconds per MB of file size,
with a floor of 15 seconds (Math.max(15, Math.ceil(sizeMB * 3))). -/
def estimateForFile (sizeBytes : ℚ) : ℚ :=
  max 15 ((⌈sizeBytes / (1024 * 1024) * 3⌉ : ℤ) : ℚ)

/-- App.tsx handleFileSelect, synchronous prefix (before the awaited
transcription resolves): store the file, enter PROCESSING, clear the error,
and initialise both countdown fields from the estimate. -/
def startFileSelect (s : AppState) (sizeBytes : ℚ) : AppState :=
  { s with
    file := some sizeBytes
    status := .processing
    errorMessage := none
    estimatedSeconds := estimateForFile sizeBytes
    remainingSeconds := estimateForFile sizeBytes }

/-- App.tsx handleUrlSelect, synchronous prefix: no physical file, fixed
20-second estimate. -/
def startUrlSelect (s : AppState) : AppState :=
  { s with
    file := none
    status := .processing
    errorMessage := none
    estimatedSeconds := 20
    remainingSeconds := 20 }

/-- App.tsx handleFileSelect/handleUrlSelect success continuation: store the
response and enter COMPLETED; the status change re-runs the progress effect,
which zeroes the progress bar. -/
def finishSuccess (s : AppState) (r : TranscriptionResponse) : AppState :=
  progressEffect { s with result := some r, status := .completed }

/-- App.tsx handleFileSelect catch branch: store error.message (or the
generic fallback when the thrown value carries none) and enter ERROR; the
status change re-runs the progress effect. -/
def finishFailure (s : AppState) (msg : Option String) : AppState :=
  progressEffect
    { s with
      errorMessage := some (jsOr msg "Ocorreu um erro inesperado ao processar o arquivo.")
      status := .error }

/-- TranscriptionDisplay.tsx tab identifiers. -/
inductive TabType where
  | transcription
  | summary
  | translation
  | synced
  | chat
deriving DecidableEq, Repr

/-- TranscriptionDisplay.tsx note: a timestamped user annotation. -/
structure Note where
  timestamp : ℚ
  text : String
deriving DecidableEq, Repr

/-- TranscriptionDisplay.tsx component state (the slots the claims are
about: the editable canonical text, the three lazily derived views, the
chat history, the notes, and the guard flags). -/
structure DisplayState where
  activeTab : TabType
  transcriptionText : String
  summaryText : Option String
  translationText : Option String
  refinedText : Option String
  chatHistory : List ChatMessage
  notes : List Note
  isLoadingExtra : Bool
  isChatLoading : Bool
  showRefineModal : Bool
deriving Repr

/-- TranscriptionDisplay.tsx useState initialisers, as on mount. -/
def initDisplay (t : String) : DisplayState :=
  { activeTab := .synced
  , transcriptionText := t
  , summaryText := none
  , translationText := none
  , refinedText := none
  , chatHistory := []
  , notes := []
  , isLoadingExtra := false
  , isChatLoading := false
  , showRefineModal := false }

/-- TranscriptionDisplay.tsx handleTabChange catch branch for the summary
tab substitutes the fixed string; otherwise the remote result is stored. -/
def runSummaryCaught (o : Remote (Option String)) : String :=
  match generateSummary o with
  | .ok t => t
  | .error _ => "Erro resumo."

/-- TranscriptionDisplay.tsx handleTabChange catch branch for the
translation tab. -/
def runTranslateCaught (o : Remote (Option String)) : String :=
  match translateText o with
  | .ok t => t
  | .error _ => "Erro tradução."

/-- TranscriptionDisplay.tsx handleTabChange, run to quiescence of one tab
request: guarded by the in-flight flags, it switches the tab and lazily
computes the summary or translation when the cached slot is JS-falsy
(absent or the empty string).  The second component counts the remote
derivation calls this request issued. -/
def handleTabChange (oS oT : Remote (Option String)) (d : DisplayState)
    (tab : TabType) : DisplayState × ℕ :=
  if d.isLoadingExtra || d.isChatLoading then (d, 0)
  else
    let d1 := { d with activeTab := tab }
    let p2 : DisplayState × ℕ :=
      if tab = TabType.summary ∧ jsFalsy d1.summaryText = true then
        ({ d1 with summaryText := some (runSummaryCaught oS) }, 1)
      else (d1, 0)
    let p3 : DisplayState × ℕ :=
      if tab = TabType.translation ∧ jsFalsy p2.1.translationText = true then
        ({ p2.1 with translationText := some (runTranslateCaught oT) }, 1)
      else (p2.1, 0)
    (p3.1, p2.2 + p3.2)

/-- TranscriptionDisplay.tsx handleRefine, run to quiescence: open the
modal, and when refinedText is JS-falsy compute it once via refineText
(whose own catch substitutes the fixed string — dead code, since refineText
never throws).  The second component counts remote calls issued. -/
def handleRefine (oR : Remote (Option String)) (d : DisplayState) :
    DisplayState × ℕ :=
  let d1 := { d with showRefineModal := true }
  let refined : String :=
    match refineText d1.transcriptionText oR with
    | .ok t => t
    | .error _ => "Erro ao refinar texto."
  if jsFalsy d1.refinedText = true then
    ({ d1 with refinedText := some refined }, 1)
  else (d1, 0)

/-- One user session: the App component state plus the TranscriptionDisplay
component state (the latter is mounted only while COMPLETED; an unmounted
display is represented by the freshly initialised state it would next mount
with). -/
structure Session where
  app : AppState
  display : DisplayState
deriving Repr

/-- App.tsx handleReset, plus the unmounting of TranscriptionDisplay that
the status change to IDLE causes (which discards the derived views, chat
history and notes): file, result, status, errorMessage and progress are
reset; remainingSeconds is not touched by handleReset. -/
def sessionReset (s : Session) : Session :=
  { app := { s.app with
             file := none
             result := none
             status := .idle
             errorMessage := none
             progress := 0 }
  , display := initDisplay "" }

/-- Left zero-pad a number to 2 digits, as the fixed HH/MM/SS fields of an
ISO time string are rendered. -/
def pad2 (n : ℕ) : String :=
  if n < 10 then "0" ++ toString n else toString n

/-- Left zero-pad a number to 3 digits, as the ISO milliseconds field. -/
def pad3 (n : ℕ) : String :=
  if n < 10 then "00" ++ toString n
  else if n < 100 then "0" ++ toString n
  else toString n

/-- Date.prototype.setMilliseconds coerces its argument with truncation
toward zero; formatSRTTime passes seconds * 1000. -/
def jsTruncMs (seconds : ℚ) : ℤ :=
  if 0 ≤ seconds then (seconds * 1000).floor else -(-(seconds * 1000)).floor

/-- TranscriptionDisplay.tsx formatSRTTime: new Date(0) advanced by
seconds*1000 milliseconds, rendered as toISOString().substr(11, 12) with the
dot replaced by a comma — i.e. the time-of-day part HH:MM:SS,mmm of the
rolled-over date (emod 86400000 is the roll into a day). -/
def formatSRTTime (seconds : ℚ) : String :=
  let ms := jsTruncMs seconds
  let dayMs := (ms.emod 86400000).toNat
  pad2 (dayMs / 3600000) ++ ":" ++ pad2 (dayMs / 60000 % 60) ++ ":" ++
    pad2 (dayMs / 1000 % 60) ++ "," ++ pad3 (dayMs % 1000)

/-- TranscriptionDisplay.tsx handleExport, srt branch: the block rendered
for the segment at 0-based position i — its 1-based number, the timing
line, and the text. -/
def srtBlock (i : ℕ) (s : TranscriptionSegment) : String :=
  toString (i + 1) ++ "\n" ++ formatSRTTime s.start ++ " --> " ++
    formatSRTTime s.endTime ++ "\n" ++ s.text ++ "\n"

/-- The per-segment blocks of the SRT export, in order. -/
def srtBlocks (segments : List TranscriptionSegment) : List String :=
  segments.enum.map (fun p => srtBlock p.1 p.2)

/-- TranscriptionDisplay.tsx handleExport, srt branch:
segments.map((s, i) => block).join('\n'). -/
def srtContent (segments : List TranscriptionSegment) : String :=
  String.intercalate "\n" (srtBlocks segments)

/-! Concrete inputs used by counterexamples and witnesses. -/

/-- A 60-character text, long enough to pass the 50-character gate. -/
def aLong60 : String := "aaaaaaaaaaaaaaaaaaaaaaaaaaaaaaaaaaaaaaaaaaaaaaaaaaaaaaaaaaaa"

/-- A remote segment whose start exceeds its end. -/
def badSeg : TranscriptionSegment := ⟨5, 2, aLong60⟩

/-- URL oracle: both stages succeed, delivering the unordered segment. -/
def badSegOracle : ℕ → UrlAttemptOracle := fun _ =>
  ⟨.value "x", .value (some ⟨some "T", some "D", none, some [badSeg]⟩)⟩

/-- A structured payload carrying the content_missing sentinel. -/
def failData : UrlData := ⟨none, none, some "content_missing", some [⟨0, 1, "t"⟩]⟩

/-- URL oracle: every attempt ends in the content_missing sentinel. -/
def failOracle : ℕ → UrlAttemptOracle := fun _ => ⟨.value "x", .value (some failData)⟩

/-- A well-formed remote segment. -/
def goodSeg : TranscriptionSegment := ⟨0, 3, aLong60⟩

/-- URL oracle: both stages succeed with one well-formed long segment. -/
def goodOracle : ℕ → UrlAttemptOracle := fun _ =>
  ⟨.value "x", .value (some ⟨some "T", some "D", none, some [goodSeg]⟩)⟩

/-- The response transcribeUrl returns under goodOracle. -/
def goodResp : TranscriptionResponse :=
  ⟨aLong60, some "YouTube", some ⟨"T", "D"⟩, [goodSeg], 9 / 10⟩

/-- The segments transcribeAudio ends up with for a given parse outcome:
the payload's own list (empty when absent) on parse success, the single
fallback segment on parse failure. -/
def audioSegmentsOf (raw : String) : Option ParsedAudio → List TranscriptionSegment
  | some p => p.segments.getD []
  | none => [⟨0, 0, raw⟩]

/-- A parse success with zero segments, as JSON.parse may deliver. -/
def emptyParsed : ParsedAudio := ⟨some "Geral", some []⟩

/-- The empty-segments success transcribeAudio returns under emptyParsed. -/
def emptyResp : TranscriptionResponse :=
  ⟨"", some "Geral", some ⟨"Áudio Processado", "Conteúdo transcrito."⟩, [], 1⟩

/-- An App state mid-processing with the bar at 40 percent. -/
def procState : AppState := ⟨.processing, none, none, 40, 20, 10, none⟩

/-- An arbitrary stored response. -/
def someResp : TranscriptionResponse := ⟨"t", some "Geral", none, [⟨0, 1, "t"⟩], 1⟩

/-- An App state in ERROR with seven seconds left on the countdown. -/
def errApp : AppState := ⟨.error, none, none, 0, 15, 7, some "x"⟩

/-- A session sitting in the ERROR state. -/
def errSession : Session := ⟨errApp, initDisplay ""⟩

/-- A remote derivation call that returns the empty string. -/
def emptyRemote : Remote (Option String) := .ok (some "")

/-- A freshly mounted display. -/
def dInit : DisplayState := initDisplay "texto"

/-- A display whose three derived views are cached with non-empty text. -/
def cachedDisplay : DisplayState :=
  { initDisplay "texto" with
    summaryText := some "S", translationText := some "S", refinedText := some "S" }

/-! Helper lemmas shared by several claims. -/

/-- Inversion for one successful URL attempt: success passes the non-empty
gate and returns the joined text of its own segments. -/
theorem urlAttempt_ok_inv (o : UrlAttemptOracle) (r : TranscriptionResponse)
    (h : urlAttempt o = .ok r) :
    r.segments ≠ [] ∧ r.text = joinSpace (r.segments.map fun s => s.text) := by
  obtain ⟨sr, fr⟩ := o
  cases sr with
  | thrown => exact absurd h (by simp [urlAttempt])
  | value t =>
    cases fr with
    | thrown =>
      dsimp only [urlAttempt] at h
      split at h <;> exact absurd h (by simp)
    | value d =>
      cases d with
      | none =>
        dsimp only [urlAttempt] at h
        split at h <;> exact absurd h (by simp)
      | some data =>
        dsimp only [urlAttempt] at h
        by_cases ht : t = ""
        · rw [if_pos ht] at h; exact absurd h (by simp)
        · rw [if_neg ht] at h
          by_cases hc : data.error = some "content_missing" ∨ data.segments = none ∨
              data.segments = some []
          · rw [if_pos hc] at h; exact absurd h (by simp)
          · rw [if_neg hc] at h
            push_neg at hc
            obtain ⟨-, h2, h3⟩ := hc
            by_cases hl :
                (joinSpace ((data.segments.getD []).map fun s => s.text)).length < 50
            · rw [if_pos hl] at h; exact absurd h (by simp)
            · rw [if_neg hl] at h
              simp only [Except.ok.injEq] at h
              subst h
              refine ⟨?_, rfl⟩
              cases hval : data.segments with
              | none => exact absurd hval h2
              | some l =>
                simp only [hval, Option.getD_some]
                intro hnil
                exact h3 (by rw [hval, hnil])

/-- Unrolling of the two-attempt retry loop. -/
theorem transcribeUrl_eval (oracles : ℕ → UrlAttemptOracle) :
    transcribeUrl oracles =
      match urlAttempt (oracles 0) with
      | .ok r => ⟨.ok r, 1, []⟩
      | .error _ =>
        match urlAttempt (oracles 1) with
        | .ok r => ⟨.ok r, 2, [2500]⟩
        | .error _ => ⟨.error missingCaptionsMsg, 2, [2500]⟩ := by
  cases h0 : urlAttempt (oracles 0) with
  | error e0 =>
    cases h1 : urlAttempt (oracles 1) with
    | error e1 => simp [transcribeUrl, maxRetries, urlLoopAux, h0, h1]
    | ok r => simp [transcribeUrl, maxRetries, urlLoopAux, h0, h1]
  | ok r => simp [transcribeUrl, maxRetries, urlLoopAux, h0]

/-- A successful run returns the value of one of the two attempts. -/
theorem transcribeUrl_ok_attempt (oracles : ℕ → UrlAttemptOracle)
    (r : TranscriptionResponse) (h : (transcribeUrl oracles).result = .ok r) :
    urlAttempt (oracles 0) = .ok r ∨ urlAttempt (oracles 1) = .ok r := by
  rw [transcribeUrl_eval] at h
  cases h0 : urlAttempt (oracles 0) with
  | ok v => rw [h0] at h; simp at h; subst h; exact Or.inl rfl
  | error e0 =>
    cases h1 : urlAttempt (oracles 1) with
    | ok v => rw [h0, h1] at h; simp at h; subst h; exact Or.inr rfl
    | error e1 => rw [h0, h1] at h; simp [missingCaptionsMsg] at h

/-- The spec failure conditions make the attempt throw. -/
theorem attemptSpecFailed_error (o : UrlAttemptOracle) (h : attemptSpecFailed o) :
    ∃ e, urlAttempt o = .error e := by
  obtain ⟨t, data, hs, ht, hf, hcond⟩ := h
  obtain ⟨sr, fr⟩ := o
  simp only at hs hf
  subst hs; subst hf
  dsimp only [urlAttempt]
  rw [if_neg ht]
  by_cases hc : data.error = some "content_missing" ∨ data.segments = none ∨
      data.segments = some []
  · rw [if_pos hc]; exact ⟨_, rfl⟩
  · rw [if_neg hc]
    have hl : (joinSpace ((data.segments.getD []).map fun s => s.text)).length < 50 := by
      rcases hcond with h1 | h2 | h3 | h4
      · exact absurd (Or.inl h1) hc
      · exact absurd (Or.inr (Or.inl h2)) hc
      · exact absurd (Or.inr (Or.inr h3)) hc
      · exact h4
    rw [if_pos hl]
    exact ⟨_, rfl⟩

/-- Inversion for transcribeAudio: a success carries exactly the parsed
payload's segments (or the fallback segment) and their joined text. -/
theorem transcribeAudio_ok_inv (raw : String) (parsed : Option ParsedAudio)
    (mo : MetaOutcome) (r : TranscriptionResponse)
    (h : transcribeAudio raw parsed mo = .ok r) :
    r.segments = audioSegmentsOf raw parsed
    ∧ r.text = joinSpace (r.segments.map fun s => s.text) := by
  unfold transcribeAudio at h
  by_cases hr : raw = ""
  · rw [if_pos hr] at h; exact absurd h (by simp)
  · rw [if_neg hr] at h
    simp only [Except.ok.injEq] at h
    subst h
    cases parsed with
    | some p => exact ⟨rfl, rfl⟩
    | none => exact ⟨rfl, rfl⟩

/-- Evaluation of jsTruncMs on a nonnegative time via an exact product. -/
theorem jsTruncMs_eval (q : ℚ) (n : ℤ) (h0 : 0 ≤ q) (h : q * 1000 = (n : ℚ)) :
    jsTruncMs q = n := by
  rw [jsTruncMs, if_pos h0, h]
  simp [Rat.floor, Rat.den_intCast, Rat.num_intCast]

/-- formatSRTTime at 65.25 seconds. -/
theorem formatSRTTime_65_25 : formatSRTTime (65.25 : ℚ) = "00:01:05,250" := by
  have h : jsTruncMs (65.25 : ℚ) = 65250 := by
    refine jsTruncMs_eval _ _ (by norm_num) (by norm_num)
  rw [formatSRTTime, h]
  rfl

/-- formatSRTTime at 70 seconds. -/
theorem formatSRTTime_70 : formatSRTTime (70 : ℚ) = "00:01:10,000" := by
  have h : jsTruncMs (70 : ℚ) = 70000 := by
    refine jsTruncMs_eval _ _ (by norm_num) (by norm_num)
  rw [formatSRTTime, h]
  rfl

/-- formatSRTTime at 0 seconds. -/
theorem formatSRTTime_0 : formatSRTTime (0 : ℚ) = "00:00:00,000" := by
  have h : jsTruncMs (0 : ℚ) = 0 := by
    refine jsTruncMs_eval _ _ (by norm_num) (by norm_num)
  rw [formatSRTTime, h]
  rfl

/-- formatSRTTime at 1 second. -/
theorem formatSRTTime_1 : formatSRTTime (1 : ℚ) = "00:00:01,000" := by
  have h : jsTruncMs (1 : ℚ) = 1000 := by
    refine jsTruncMs_eval _ _ (by norm_num) (by norm_num)
  rw [formatSRTTime, h]
  rfl

/-- Claim C1, counterexample: on the media path, a remote payload that
parses successfully but carries zero segments is returned as a SUCCESS with
empty segments (and empty full text) — transcribeAudio has no empty-segments
guard, so the empty-result condition is not surfaced as a failure there. -/
theorem transcribeAudio_empty_segments_success :
    transcribeAudio "fala" (some emptyParsed) .remoteError =
      .ok { text := ""
          , category := some "Geral"
          , metadata := some { title := "Áudio Processado", description := "Conteúdo transcrito." }
          , segments := []
          , confidence := 1 } := by
  rfl

/-- Claim C1, amended: on the URL path a successful return always carries a
non-empty segments sequence (a zero-segment structured result is rejected
and the attempt fails); on the media path a successful return's segments are
exactly the parsed payload's segments — possibly empty — or the single
fallback segment when parsing fails, so only the URL path guarantees
non-emptiness. -/
theorem acquisition_segments_policy :
    (∀ (oracles : ℕ → UrlAttemptOracle) (r : TranscriptionResponse),
        (transcribeUrl oracles).result = .ok r → r.segments ≠ [])
    ∧ (∀ (raw : String) (parsed : Option ParsedAudio) (mo : MetaOutcome)
        (r : TranscriptionResponse), transcribeAudio raw parsed mo = .ok r →
        r.segments = audioSegmentsOf raw parsed) := by
  constructor
  · intro oracles r h
    rcases transcribeUrl_ok_attempt oracles r h with h0 | h1
    · exact (urlAttempt_ok_inv _ _ h0).1
    · exact (urlAttempt_ok_inv _ _ h1).1
  · intro raw parsed mo r h
    exact (transcribeAudio_ok_inv raw parsed mo r h).1

/-- Witness for acquisition_segments_policy at concrete inputs. -/
theorem acquisition_segments_policy_witness :
    goodResp.segments ≠ [] ∧
    emptyResp.segments = audioSegmentsOf "fala" (some emptyParsed) :=
  ⟨acquisition_segments_policy.1 goodOracle goodResp rfl,
   acquisition_segments_policy.2 "fala" (some emptyParsed) .remoteError emptyResp rfl⟩

/-- Claim C2: transcribeUrl runs at most 2 attempts; exactly one 2500 ms
backoff is awaited when and only when a second attempt happens (so never
after the last); an attempt meeting any of the spec's failure conditions
(content_missing sentinel, empty or absent segments, joined text shorter
than 50 characters) throws; and when every attempt fails so, the run ends
in the user-facing missing-captions error after exactly 2 attempts. -/
theorem transcribeUrl_retry_policy :
    (∀ oracles : ℕ → UrlAttemptOracle, (transcribeUrl oracles).attemptsUsed ≤ 2)
    ∧ (∀ oracles : ℕ → UrlAttemptOracle,
        (transcribeUrl oracles).sleeps =
          (if (transcribeUrl oracles).attemptsUsed = 2 then [2500] else []))
    ∧ (∀ o : UrlAttemptOracle, attemptSpecFailed o → ∃ e, urlAttempt o = .error e)
    ∧ (∀ oracles : ℕ → UrlAttemptOracle,
        (∀ i, i < 2 → attemptSpecFailed (oracles i)) →
        (transcribeUrl oracles).result = .error missingCaptionsMsg ∧
        (transcribeUrl oracles).attemptsUsed = 2 ∧
        (transcribeUrl oracles).sleeps = [2500]) := by
  refine ⟨?_, ?_, attemptSpecFailed_error, ?_⟩
  · intro oracles
    rw [transcribeUrl_eval]
    cases urlAttempt (oracles 0) <;> cases urlAttempt (oracles 1) <;> simp
  · intro oracles
    rw [transcribeUrl_eval]
    cases urlAttempt (oracles 0) <;> cases urlAttempt (oracles 1) <;> simp
  · intro oracles hfail
    obtain ⟨e0, h0⟩ := attemptSpecFailed_error _ (hfail 0 (by norm_num))
    obtain ⟨e1, h1⟩ := attemptSpecFailed_error _ (hfail 1 (by norm_num))
    rw [transcribeUrl_eval, h0, h1]
    exact ⟨rfl, rfl, rfl⟩

/-- Witness for transcribeUrl_retry_policy at a concrete oracle whose every
attempt carries the content_missing sentinel. -/
theorem transcribeUrl_retry_policy_witness :
    (∃ e, urlAttempt (failOracle 0) = .error e) ∧
    (transcribeUrl failOracle).result = .error missingCaptionsMsg ∧
    (transcribeUrl failOracle).attemptsUsed = 2 ∧
    (transcribeUrl failOracle).sleeps = [2500] :=
  ⟨transcribeUrl_retry_policy.2.2.1 (failOracle 0)
      ⟨"x", failData, rfl, by decide, rfl, Or.inl rfl⟩,
   transcribeUrl_retry_policy.2.2.2 failOracle
      (fun i _ => ⟨"x", failData, rfl, by decide, rfl, Or.inl rfl⟩)⟩

/-- Claim C3, counterexample: generateSummary and translateText wrap their
remote call in no try/catch, so a remote failure propagates as an exception
instead of returning a fixed localized error string. -/
theorem generateSummary_translateText_throw :
    generateSummary .thrown = .error () ∧ translateText .thrown = .error () :=
  ⟨rfl, rfl⟩

/-- Claim C3, amended: only sendChatMessage returns a fixed localized error
string on remote failure; refineText also never throws but falls back to its
input text rather than a fixed string; generateSummary and translateText
propagate remote exceptions (their UI callers, not the service operations,
substitute the fixed strings). -/
theorem derived_view_error_policy :
    (∀ (h : List ChatMessage) (c q : String) (r : ChatRequest → Remote (Option String)),
        ∃ s, sendChatMessage h c q r = .ok s)
    ∧ (∀ (h : List ChatMessage) (c q : String),
        sendChatMessage h c q (fun _ => .thrown) = .ok "Erro no chat.")
    ∧ (∀ text : String, refineText text .thrown = .ok text)
    ∧ (∀ (text : String) (r : Remote (Option String)), ∃ s, refineText text r = .ok s)
    ∧ generateSummary .thrown = .error ()
    ∧ translateText .thrown = .error () := by
  refine ⟨?_, fun h c q => rfl, fun text => rfl, ?_, rfl, rfl⟩
  · intro h c q r
    cases hr : r (sendChatMessageRequest h c q) with
    | thrown => exact ⟨_, by rw [sendChatMessage, hr]⟩
    | ok t => exact ⟨_, by rw [sendChatMessage, hr]⟩
  · intro text r
    cases r with
    | thrown => exact ⟨text, rfl⟩
    | ok t => exact ⟨_, rfl⟩

/-- Claim C4, counterexample: the URL path returns unvalidated remote
segments — an attempt whose only segment has start 5 and end 2 (with text
long enough to pass the 50-character gate) succeeds, so start ≤ end does not
hold for every segment returned by acquisition. -/
theorem transcribeUrl_unordered_segment_success :
    (transcribeUrl badSegOracle).result =
      .ok { text := aLong60
          , category := some "YouTube"
          , metadata := some { title := "T", description := "D" }
          , segments := [badSeg]
          , confidence := 9 / 10 }
    ∧ ¬ badSeg.start ≤ badSeg.endTime :=
  ⟨rfl, by decide⟩

/-- Claim C4, amended: on both acquisition paths the returned fullText
equals the segments' texts joined by single spaces; the segments themselves
are passed through from the remote payload unvalidated, so start ≤ end holds
only when the payload already satisfies it. -/
theorem fullText_join_of_segments :
    (∀ (oracles : ℕ → UrlAttemptOracle) (r : TranscriptionResponse),
        (transcribeUrl oracles).result = .ok r →
        r.text = joinSpace (r.segments.map fun s => s.text))
    ∧ (∀ (raw : String) (parsed : Option ParsedAudio) (mo : MetaOutcome)
        (r : TranscriptionResponse), transcribeAudio raw parsed mo = .ok r →
        r.text = joinSpace (r.segments.map fun s => s.text)) := by
  constructor
  · intro oracles r h
    rcases transcribeUrl_ok_attempt oracles r h with h0 | h1
    · exact (urlAttempt_ok_inv _ _ h0).2
    · exact (urlAttempt_ok_inv _ _ h1).2
  · intro raw parsed mo r h
    exact (transcribeAudio_ok_inv raw parsed mo r h).2

/-- Witness for fullText_join_of_segments at concrete runs of both paths. -/
theorem fullText_join_of_segments_witness :
    goodResp.text = joinSpace (goodResp.segments.map fun s => s.text) ∧
    emptyResp.text = joinSpace (emptyResp.segments.map fun s => s.text) :=
  ⟨fullText_join_of_segments.1 goodOracle goodResp rfl,
   fullText_join_of_segments.2 "fala" (some emptyParsed) .remoteError emptyResp rfl⟩

/-- Claim C5, counterexample: at the transition from Processing to
Completed the progress value becomes 0, not 100 — no code path ever sets the
progress to 100; the status-change effect resets the bar instead. -/
theorem finishSuccess_progress_zero :
    (finishSuccess procState someResp).status = .completed ∧
    (finishSuccess procState someResp).progress = 0 ∧ ((0 : ℚ) ≠ 100) :=
  ⟨rfl, rfl, by norm_num⟩

/-- Claim C5, amended: the periodic tick never advances progress past 95
(so the timer alone never reaches 100), and at the transition to Completed
the progress value is reset to 0 by the status-change effect — it is never
set to 100. -/
theorem progress_tick_capped :
    (∀ s : AppState, s.progress ≤ 95 → (tick s).progress ≤ 95)
    ∧ (∀ (s : AppState) (r : TranscriptionResponse),
        (finishSuccess s r).status = .completed ∧ (finishSuccess s r).progress = 0) := by
  constructor
  · intro s h
    rw [tick]
    split
    · split
      · exact h
      · exact min_le_left _ _
    · exact h
  · intro s r
    exact ⟨rfl, rfl⟩

/-- Witness for progress_tick_capped at a concrete processing state. -/
theorem progress_tick_capped_witness :
    (tick procState).progress ≤ 95 ∧
    ((finishSuccess procState someResp).status = .completed ∧
      (finishSuccess procState someResp).progress = 0) :=
  ⟨progress_tick_capped.1 procState (by decide),
   progress_tick_capped.2 procState someResp⟩

/-- Claim C6, counterexample: reset from the Error state leaves
remainingSeconds at its stale value (7 here) — handleReset never touches
setRemainingSeconds, so the countdown is not returned to zero. -/
theorem reset_keeps_remainingSeconds :
    errSession.app.status ≠ .idle ∧
    (sessionReset errSession).app.status = .idle ∧
    (sessionReset errSession).app.remainingSeconds = 7 ∧ ((7 : ℚ) ≠ 0) :=
  ⟨by decide, rfl, rfl, by norm_num⟩

/-- Claim C6, amended: reset from any non-Idle state clears the stored
result, the error message, the selected file, all derived views, the chat
history and the notes, returns progress to zero and the session to Idle —
but leaves remainingSeconds unchanged (it is only reinitialised when a new
processing run starts). -/
theorem reset_clears_session :
    ∀ s : Session, s.app.status ≠ .idle →
      (sessionReset s).app.status = .idle ∧
      (sessionReset s).app.result = none ∧
      (sessionReset s).app.errorMessage = none ∧
      (sessionReset s).app.file = none ∧
      (sessionReset s).app.progress = 0 ∧
      (sessionReset s).display.summaryText = none ∧
      (sessionReset s).display.translationText = none ∧
      (sessionReset s).display.refinedText = none ∧
      (sessionReset s).display.chatHistory = [] ∧
      (sessionReset s).display.notes = [] ∧
      (sessionReset s).app.remainingSeconds = s.app.remainingSeconds := by
  intro s h
  exact ⟨rfl, rfl, rfl, rfl, rfl, rfl, rfl, rfl, rfl, rfl, rfl⟩

/-- Witness for reset_clears_session at the concrete Error-state session. -/
theorem reset_clears_session_witness :
    (sessionReset errSession).app.status = .idle ∧
    (sessionReset errSession).app.result = none ∧
    (sessionReset errSession).app.errorMessage = none ∧
    (sessionReset errSession).app.file = none ∧
    (sessionReset errSession).app.progress = 0 ∧
    (sessionReset errSession).display.summaryText = none ∧
    (sessionReset errSession).display.translationText = none ∧
    (sessionReset errSession).display.refinedText = none ∧
    (sessionReset errSession).display.chatHistory = [] ∧
    (sessionReset errSession).display.notes = [] ∧
    (sessionReset errSession).app.remainingSeconds = errSession.app.remainingSeconds :=
  reset_clears_session errSession (by decide)

/-- Claim C7, counterexample: when the remote summary comes back as the
empty string, the cached value is JS-falsy, so a second request for the
summary tab issues a second remote call — the at-most-once guarantee fails
for empty derived values. -/
theorem empty_summary_refetches :
    (handleTabChange emptyRemote emptyRemote dInit .summary).2 = 1 ∧
    (handleTabChange emptyRemote emptyRemote
        (handleTabChange emptyRemote emptyRemote dInit .summary).1 .summary).2 = 1 :=
  ⟨rfl, rfl⟩

/-- Claim C7, amended: a derived view whose cached value is a non-empty
string is never recomputed — a repeat request issues no remote call and
returns the identical cached state (only the active tab, or the refine
modal flag, changes); an empty-string cached value is treated as absent by
the JS truthiness test and re-triggers the remote call. -/
theorem derived_view_cached_once :
    ∀ (d : DisplayState) (oS oT oR : Remote (Option String)) (v : String),
      d.isLoadingExtra = false → d.isChatLoading = false → v ≠ "" →
      (d.summaryText = some v →
        handleTabChange oS oT d .summary = ({ d with activeTab := .summary }, 0))
      ∧ (d.translationText = some v →
        handleTabChange oS oT d .translation = ({ d with activeTab := .translation }, 0))
      ∧ (d.refinedText = some v →
        handleRefine oR d = ({ d with showRefineModal := true }, 0)) := by
  intro d oS oT oR v hl hc hv
  refine ⟨?_, ?_, ?_⟩
  · intro hs
    simp [handleTabChange, jsFalsy, hl, hc, hs, hv]
  · intro hs
    simp [handleTabChange, jsFalsy, hl, hc, hs, hv]
  · intro hs
    simp [handleRefine, jsFalsy, hs, hv]

/-- Witness for derived_view_cached_once at a display with all three views
cached non-empty. -/
theorem derived_view_cached_once_witness :
    (handleTabChange emptyRemote emptyRemote cachedDisplay .summary =
      ({ cachedDisplay with activeTab := .summary }, 0)) ∧
    (handleTabChange emptyRemote emptyRemote cachedDisplay .translation =
      ({ cachedDisplay with activeTab := .translation }, 0)) ∧
    (handleRefine emptyRemote cachedDisplay =
      ({ cachedDisplay with showRefineModal := true }, 0)) := by
  have h := derived_view_cached_once cachedDisplay emptyRemote emptyRemote emptyRemote
      "S" rfl rfl (by decide)
  exact ⟨h.1 rfl, h.2.1 rfl, h.2.2 rfl⟩

/-- Claim C8: whenever the media-path remote call returns non-empty text
whose structural JSON parse fails, transcribeAudio succeeds with exactly the
single fallback segment covering time zero and carrying the raw text
verbatim (the metadata step cannot fail, so the whole operation returns
successfully). -/
theorem transcribeAudio_parse_fallback :
    ∀ (raw : String) (mo : MetaOutcome), raw ≠ "" →
      transcribeAudio raw none mo =
        .ok { text := raw
            , category := some "Geral"
            , metadata := some (generateMetadata mo)
            , segments := [⟨0, 0, raw⟩]
            , confidence := 1 } := by
  intro raw mo h
  rw [transcribeAudio, if_neg h]
  rfl

/-- Witness for transcribeAudio_parse_fallback at a concrete raw text. -/
theorem transcribeAudio_parse_fallback_witness :
    transcribeAudio "abc" none .remoteError =
      .ok { text := "abc"
          , category := some "Geral"
          , metadata := some (generateMetadata .remoteError)
          , segments := [⟨0, 0, "abc"⟩]
          , confidence := 1 } :=
  transcribeAudio_parse_fallback "abc" .remoteError (by decide)

set_option maxRecDepth 8000 in
/-- Claim C9: the SRT export numbers the block at 0-based position i with
i+1 (so consecutively from 1) and renders its timing line as two
HH:MM:SS,mmm stamps — zero-padded fields with a comma before the
milliseconds — joined by an arrow; in particular the segment
start 65.25 / end 70.0 / text hello yields the timing line
00:01:05,250 --> 00:01:10,000. -/
theorem srt_numbering_and_timing :
    (∀ (segs : List TranscriptionSegment) (i : ℕ) (seg : TranscriptionSegment),
        segs[i]? = some seg →
        (srtBlocks segs)[i]? =
          some (toString (i + 1) ++ "\n" ++ formatSRTTime seg.start ++ " --> " ++
            formatSRTTime seg.endTime ++ "\n" ++ seg.text ++ "\n"))
    ∧ (∀ q : ℚ, ∃ hh mm ss mmm : ℕ, hh < 24 ∧ mm < 60 ∧ ss < 60 ∧ mmm < 1000 ∧
        formatSRTTime q =
          pad2 hh ++ ":" ++ pad2 mm ++ ":" ++ pad2 ss ++ "," ++ pad3 mmm)
    ∧ (∀ n : ℕ, n < 100 → (pad2 n).length = 2)
    ∧ (∀ n : ℕ, n < 1000 → (pad3 n).length = 3)
    ∧ formatSRTTime (65.25 : ℚ) ++ " --> " ++ formatSRTTime (70 : ℚ) =
        "00:01:05,250 --> 00:01:10,000"
    ∧ srtContent [⟨65.25, 70, "hello"⟩, ⟨0, 1, "x"⟩] =
        "1\n00:01:05,250 --> 00:01:10,000\nhello\n\n2\n00:00:00,000 --> 00:00:01,000\nx\n" := by
  refine ⟨?_, ?_, ?_, ?_, ?_, ?_⟩
  · intro segs i seg h
    simp [srtBlocks, List.getElem?_map, List.getElem?_enum, h, srtBlock]
  · intro q
    have h1 : 0 ≤ (jsTruncMs q).emod 86400000 := Int.emod_nonneg _ (by norm_num)
    have h2 : (jsTruncMs q).emod 86400000 < 86400000 :=
      Int.emod_lt_of_pos _ (by norm_num)
    refine ⟨((jsTruncMs q).emod 86400000).toNat / 3600000,
      ((jsTruncMs q).emod 86400000).toNat / 60000 % 60,
      ((jsTruncMs q).emod 86400000).toNat / 1000 % 60,
      ((jsTruncMs q).emod 86400000).toNat % 1000, ?_, ?_, ?_, ?_, rfl⟩
    · omega
    · exact Nat.mod_lt _ (by norm_num)
    · exact Nat.mod_lt _ (by norm_num)
    · exact Nat.mod_lt _ (by norm_num)
  · decide
  · decide
  · rw [formatSRTTime_65_25, formatSRTTime_70]; rfl
  · have hb0 : srtBlock 0 ⟨65.25, 70, "hello"⟩ =
        "1\n00:01:05,250 --> 00:01:10,000\nhello\n" := by
      show toString (0 + 1) ++ "\n" ++ formatSRTTime (65.25 : ℚ) ++ " --> " ++
        formatSRTTime (70 : ℚ) ++ "\n" ++ "hello" ++ "\n" = _
      rw [formatSRTTime_65_25, formatSRTTime_70]; rfl
    have hb1 : srtBlock 1 ⟨0, 1, "x"⟩ =
        "2\n00:00:00,000 --> 00:00:01,000\nx\n" := by
      show toString (1 + 1) ++ "\n" ++ formatSRTTime (0 : ℚ) ++ " --> " ++
        formatSRTTime (1 : ℚ) ++ "\n" ++ "x" ++ "\n" = _
      rw [formatSRTTime_0, formatSRTTime_1]; rfl
    have hbl : srtBlocks [⟨65.25, 70, "hello"⟩, ⟨0, 1, "x"⟩] =
        [srtBlock 0 ⟨65.25, 70, "hello"⟩, srtBlock 1 ⟨0, 1, "x"⟩] := rfl
    rw [srtContent, hbl, hb0, hb1]
    rfl

/-- Witness for srt_numbering_and_timing at concrete inputs. -/
theorem srt_numbering_and_timing_witness :
    (srtBlocks [goodSeg])[0]? =
      some (toString (0 + 1) ++ "\n" ++ formatSRTTime goodSeg.start ++ " --> " ++
        formatSRTTime goodSeg.endTime ++ "\n" ++ goodSeg.text ++ "\n") ∧
    (pad2 7).length = 2 ∧ (pad3 7).length = 3 :=
  ⟨srt_numbering_and_timing.1 [goodSeg] 0 goodSeg rfl,
   srt_numbering_and_timing.2.2.1 7 (by norm_num),
   srt_numbering_and_timing.2.2.2.1 7 (by norm_num)⟩

/-- Claim C10: the chat-history argument of sendChatMessage is never read —
for any two histories and the same context and question, the operation
issues the identical remote request and, for any remote behaviour, returns
the identical result. -/
theorem sendChatMessage_history_irrelevant :
    ∀ (h1 h2 : List ChatMessage) (context question : String),
      sendChatMessageRequest h1 context question =
        sendChatMessageRequest h2 context question
      ∧ ∀ r : ChatRequest → Remote (Option String),
          sendChatMessage h1 context question r =
            sendChatMessage h2 context question r :=
  fun _ _ _ _ => ⟨rfl, fun _ => rfl⟩

end Claria
